import Mathlib

/-!
A shallow embedding of `zfs.go` from theairkit/zfs.

Every operation in the source invokes the external `zfs` binary through the
runcmd collaborator, so a command is identified by its argument list.  The
collaborator is modelled as an abstract `Runner` mapping an argument list to
the outcome of validation (`CmdError`), of a blocking run with captured
stdout (`Run` with `SetStdout`), and of an asynchronous start (`Start`).
Errors are carried as their text, matching the Go code's reliance on
`err.Error()` substring classification.
-/

abbrev Err := String

/-- Abstract command execution service for the `zfs` binary. -/
structure Runner where
  cmdError : List String → Option Err
  run : List String → Except Err String
  start : List String → Option Err

/-- `strings.Split s "\n"`: split on every newline, keeping empty fields. -/
def splitNlAux : List Char → List Char → List String
  | [], acc => [String.mk acc.reverse]
  | c :: rest, acc =>
    if c = '\n' then String.mk acc.reverse :: splitNlAux rest []
    else splitNlAux rest (c :: acc)

def splitNl (s : String) : List String := splitNlAux s.toList []

/-- Substring search on character lists: does `needle` occur contiguously in
`hay`?  An empty needle always occurs. -/
def containsChars (needle : List Char) : List Char → Bool
  | [] => needle.isEmpty
  | c :: rest => needle.isPrefixOf (c :: rest) || containsChars needle rest

/-- `strings.Contains hay sub`. -/
def containsStr (hay sub : String) : Bool := containsChars sub.toList hay.toList

/-- `strings.HasSuffix s "*"`. -/
def hasStarSuffix (s : String) : Bool := s.toList.getLast? = some '*'

/-- `strings.TrimRight s "*"`: drop every trailing asterisk. -/
def trimStars (s : String) : String :=
  String.mk (s.toList.reverse.dropWhile (fun c => c = '*')).reverse

/-- Whitespace trimming as the spec's word "trimmed" reads: drop leading and
trailing whitespace (the analogue of `strings.TrimSpace`). -/
def trimStr (s : String) : String :=
  String.mk
    ((s.toList.dropWhile Char.isWhitespace).reverse.dropWhile
      Char.isWhitespace).reverse

/-- zfs.go lines 190-196: drop a single trailing empty line of the split. -/
def stripTrailingEmpty (l : List String) : List String :=
  if 1 < l.length then
    if l.getLast? = some "" then l.dropLast else l
  else l

def FS : String := "filesystem"
def SNAP : String := "snapshot"
def DATANOE : String := "dataset does not exist"

/-- Argument list built by the non-wildcard path of Zfs.List (zfs.go 153-175):
the trailing positional target is dropped entirely when it is empty. -/
def listArgs (fs fsType : String) (recursive : Bool) : List String :=
  let args :=
    if recursive then ["list", "-Ho", "name", "-t", fsType, "-r", fs]
    else ["list", "-Ho", "name", "-t", fsType, fs]
  if fs = "" then args.dropLast else args

/-- The non-wildcard path of Zfs.List (zfs.go 153-197). -/
def listPlain (r : Runner) (fs fsType : String) (recursive : Bool) :
    Except Err (List String) :=
  match r.cmdError (listArgs fs fsType recursive) with
  | some e => .error e
  | none =>
    match r.run (listArgs fs fsType recursive) with
    | .error e => .error e
    | .ok out => .ok (stripTrailingEmpty (splitNl out))

/-- Zfs.List (zfs.go 136-198).  The wildcard branch calls
`this.List("", FS, false)`; since `""` has no trailing asterisk that call is
exactly `listPlain r "" FS false`, so the recursion is unfolded here. -/
def ListCmd (r : Runner) (fs fsType : String) (recursive : Bool) :
    Except Err (List String) :=
  if hasStarSuffix fs then
    match listPlain r "" FS false with
    | .error e => .error e
    | .ok out => .ok (out.filter fun next => containsStr next (trimStars fs))
  else
    listPlain r fs fsType recursive

/-- Zfs.ExistFs (zfs.go 108-116); the pair models Go's `(bool, error)`. -/
def ExistFs (r : Runner) (fs : String) : Bool × Option Err :=
  match ListCmd r fs FS false with
  | .error e => if containsStr e DATANOE then (false, none) else (false, some e)
  | .ok _ => (true, none)

/-- Zfs.ExistSnap (zfs.go 122-130). -/
def ExistSnap (r : Runner) (fs snap : String) : Bool × Option Err :=
  match ListCmd r (fs ++ "@" ++ snap) SNAP false with
  | .error e => if containsStr e DATANOE then (false, none) else (false, some e)
  | .ok _ => (true, none)

def propArgs (pKey fs : String) : List String :=
  ["get", "-Ho", "value", pKey, fs]

/-- Zfs.Property (zfs.go 241-262): one query, captured stdout returned
unchanged (`stdout.String()`, no trimming). -/
def Property (r : Runner) (fs pKey : String) : Except Err String :=
  match r.cmdError (propArgs pKey fs) with
  | some e => .error e
  | none => r.run (propArgs pKey fs)

def setArgs (pKey value fs : String) : List String :=
  ["set", pKey ++ "=" ++ value, fs]

/-- Zfs.SetProperty (zfs.go 268-290): write, then read the key back and
require exact equality with the requested value. -/
def SetProperty (r : Runner) (fs pKey value : String) : Option Err :=
  match r.cmdError (setArgs pKey value fs) with
  | some e => some e
  | none =>
    match r.run (setArgs pKey value fs) with
    | .error e => some e
    | .ok _ =>
      match Property r fs pKey with
      | .error e => some e
      | .ok out =>
        if out = value then none else some ("cannot set property: " ++ pKey)

def recentArgs (snap : String) : List String :=
  ["list", "-Hro", "name", "-t", "snapshot", "-S", "creation", snap]

/-- The loop of Zfs.RecentSnap (zfs.go 320-332).  On a failed property read
the Go code executes `return "", nil`: the scan stops at that candidate and
the error is swallowed. -/
def recentScan (r : Runner) (pKey : String) : List String → String × Option Err
  | [] => ("", none)
  | s :: rest =>
    if pKey = "" then (s, none)
    else
      match Property r s pKey with
      | .error _ => ("", none)
      | .ok v => if v = "true" then (s, none) else recentScan r pKey rest

/-- Zfs.RecentSnap (zfs.go 296-334).  Unlike Zfs.List, the split stdout is not
stripped of a trailing empty line before the scan. -/
def RecentSnap (r : Runner) (snap pKey : String) : String × Option Err :=
  match r.cmdError (recentArgs snap) with
  | some e => ("", some e)
  | none =>
    match r.run (recentArgs snap) with
    | .error e => ("", some e)
    | .ok out => recentScan r pKey (splitNl out)

/-- The scan the spec describes for `mostRecentSnapshot` with a non-empty key:
return the first candidate whose property reads as the literal "true",
skipping (not aborting on) candidates whose property read fails.  Written
from the spec's words, for comparison with `recentScan`. -/
def mostRecentSnapshotSpec (r : Runner) (pKey : String) : List String → String
  | [] => ""
  | s :: rest =>
    match Property r s pKey with
    | .error _ => mostRecentSnapshotSpec r pKey rest
    | .ok v => if v = "true" then s else mostRecentSnapshotSpec r pKey rest

def recvArgs (fs snap : String) : List String := ["recv", fs ++ "@" ++ snap]

/-- Zfs.RecvSnap (zfs.go 340-352): `err = c.Start()` is computed and then
discarded; the handle (identified by its argument list) is returned with a
nil error unconditionally once validation passed. -/
def RecvSnap (r : Runner) (fs snap : String) :
    Option (List String) × Option Err :=
  match r.cmdError (recvArgs fs snap) with
  | some e => (none, some e)
  | none =>
    let _ := r.start (recvArgs fs snap)
    (some (recvArgs fs snap), none)

/-- Arguments of the producer invocation built by Zfs.SendSnap
(zfs.go 358-369): incremental by default, replaced by the two-element full
form when the new snapshot name is empty. -/
def sendArgs (fs snapOld snapNew : String) : List String :=
  if snapNew = "" then ["send", fs ++ "@" ++ snapOld]
  else ["send", "-i", fs ++ "@" ++ snapOld, fs ++ "@" ++ snapNew]

/-- One io.Copy transfer: the producer's stream moves through a fixed
32 * 1024 = 32768-byte buffer, one read/write round per chunk; no chunk ever
holds more than one buffer, whatever the total size. -/
def copyChunks (l : List Nat) : List (List Nat) :=
  if _h : l = [] then []
  else l.take 32768 :: copyChunks (l.drop 32768)
termination_by l.length
decreasing_by
  have hl : 0 < l.length := List.length_pos.mpr _h
  simp only [List.length_drop]
  omega

/-- Concrete runner: every run fails with the recognized "does not exist"
text, as the tool does for an absent dataset. -/
def runnerNoExist : Runner where
  cmdError := fun _ => none
  run := fun _ => .error ("cannot open tank/x: " ++ DATANOE)
  start := fun _ => none

/-- Concrete runner: every run fails with an unrelated error text. -/
def runnerBroken : Runner where
  cmdError := fun _ => none
  run := fun _ => .error "permission denied"
  start := fun _ => none

/-- Concrete runner: the recency listing yields two snapshots newest-first;
the property read of the newer one fails, the older one reads "true". -/
def runnerFlaky : Runner where
  cmdError := fun _ => none
  run := fun args =>
    if args = recentArgs "a@" then .ok "a@s2\na@s1"
    else if args = propArgs "k" "a@s2" then .error "transient failure"
    else if args = propArgs "k" "a@s1" then .ok "true"
    else .error "unexpected"
  start := fun _ => none

/-- Concrete runner: as `runnerFlaky` but every property read succeeds; only
the older snapshot carries the value "true". -/
def runnerSteady : Runner where
  cmdError := fun _ => none
  run := fun args =>
    if args = recentArgs "a@" then .ok "a@s2\na@s1"
    else if args = propArgs "k" "a@s1" then .ok "true"
    else .ok "-"
  start := fun _ => none

/-- Concrete runner: a pool with three filesystems, answering only the
full unfiltered filesystem listing. -/
def runnerPool : Runner where
  cmdError := fun _ => none
  run := fun args =>
    if args = ["list", "-Ho", "name", "-t", FS] then
      .ok "tank\ntank/home\nzroot/var\n"
    else .error "unexpected"
  start := fun _ => none

/-- Concrete runner: the set command reports success but the value read back
is not the one written. -/
def runnerStubborn : Runner where
  cmdError := fun _ => none
  run := fun args =>
    if args = setArgs "compression" "on" "tank" then .ok ""
    else if args = propArgs "compression" "tank" then .ok "off"
    else .error "unexpected"
  start := fun _ => none

/-- Concrete runner: the get query's stdout carries the value plus the
tool's trailing newline. -/
def runnerNewline : Runner where
  cmdError := fun _ => none
  run := fun args =>
    if args = propArgs "k" "tank" then .ok "true\n" else .error "unexpected"
  start := fun _ => none

/-- Concrete runner: validation passes but the asynchronous start fails. -/
def runnerStartFail : Runner where
  cmdError := fun _ => none
  run := fun _ => .error "unexpected"
  start := fun _ => some "exec failed"

/-- Events of one Zfs.SendSnap call, in program order (zfs.go 370-390). -/
inductive SendEv where
  | checkCmd
  | pipeOut
  | pipeIn
  | startOk
  | startFail
  | copy
  deriving DecidableEq

/-- Outcomes of each effectful step of one Zfs.SendSnap call, fixed in
advance by the environment: validation, the two pipe acquisitions, the
producer start, the producer's byte stream, the copy-loop error (none on a
clean end-of-stream) and, when the copy fails, how many bytes moved first. -/
structure SendEnv where
  cmdErr : Option Err
  outPipeErr : Option Err
  inPipeErr : Option Err
  startErr : Option Err
  producerBytes : List Nat
  copyErr : Option Err
  delivered : Nat

structure SendOutcome where
  trace : List SendEv
  handle : Option (List String)
  err : Option Err
  received : List (List Nat)
  deriving DecidableEq

/-- Zfs.SendSnap (zfs.go 357-391): validate the producer invocation, acquire
the producer's stdout pipe, acquire the consumer's stdin pipe, start the
producer, then stream its output into the consumer's input. -/
def SendSnap (env : SendEnv) (fs snapOld snapNew : String) : SendOutcome :=
  match env.cmdErr with
  | some e => ⟨[.checkCmd], none, some e, []⟩
  | none =>
    match env.outPipeErr with
    | some e => ⟨[.checkCmd, .pipeOut], none, some e, []⟩
    | none =>
      match env.inPipeErr with
      | some e => ⟨[.checkCmd, .pipeOut, .pipeIn], none, some e, []⟩
      | none =>
        match env.startErr with
        | some e => ⟨[.checkCmd, .pipeOut, .pipeIn, .startFail], none, some e, []⟩
        | none =>
          ⟨[.checkCmd, .pipeOut, .pipeIn, .startOk, .copy],
           some (sendArgs fs snapOld snapNew),
           env.copyErr,
           match env.copyErr with
           | none => copyChunks env.producerBytes
           | some _ => copyChunks (env.producerBytes.take env.delivered)⟩

/-- The argument list of the full unfiltered filesystem listing issued by the
wildcard branch: `listArgs "" FS false` with the empty target dropped. -/
def allFsArgs : List String := ["list", "-Ho", "name", "-t", FS]

/-- Concrete environment: every step of SendSnap succeeds and the copy ends
at end-of-stream with no error. -/
def sendEnvOk : SendEnv := ⟨none, none, none, none, [7, 7, 7], none, 3⟩

/-- Concrete environment: acquiring the producer's stdout pipe fails. -/
def sendEnvPipeFail : SendEnv := ⟨none, some "broken pipe", none, none, [], none, 0⟩

/-- Concrete environment: every step succeeds up to the start, then the
streaming copy fails after one byte. -/
def sendEnvCopyFail : SendEnv :=
  ⟨none, none, none, none, [1, 2], some "consumer closed early", 1⟩

/-- C3: the existence checks perform a non-recursive listing of the target;
a listing failure whose text contains "dataset does not exist" yields
`(false, none)`, any other failure is propagated unchanged, and a successful
listing yields `(true, none)` — for ExistFs and ExistSnap alike. -/
theorem existenceCheck_classifies_datanoe (r : Runner) (fs snap : String) :
    (∀ e, ListCmd r fs FS false = .error e →
      ExistFs r fs =
        if containsStr e DATANOE then (false, none) else (false, some e)) ∧
    (∀ l, ListCmd r fs FS false = .ok l → ExistFs r fs = (true, none)) ∧
    (∀ e, ListCmd r (fs ++ "@" ++ snap) SNAP false = .error e →
      ExistSnap r fs snap =
        if containsStr e DATANOE then (false, none) else (false, some e)) ∧
    (∀ l, ListCmd r (fs ++ "@" ++ snap) SNAP false = .ok l →
      ExistSnap r fs snap = (true, none)) := by
  refine ⟨fun e h => ?_, fun l h => ?_, fun e h => ?_, fun l h => ?_⟩ <;>
    simp [ExistFs, ExistSnap, h]

theorem existenceCheck_classifies_datanoe_witness :
    ExistFs runnerNoExist "tank" = (false, none) ∧
    ExistFs runnerBroken "tank" = (false, some "permission denied") := by
  constructor
  · have h := (existenceCheck_classifies_datanoe runnerNoExist "tank" "s").1
      ("cannot open tank/x: " ++ DATANOE) rfl
    rw [h]
    rfl
  · have h := (existenceCheck_classifies_datanoe runnerBroken "tank" "s").1
      "permission denied" rfl
    rw [h]
    rfl

/-- C5: SetProperty issues the write and, once the write reported success,
reads the same key back; a read-back value different from the requested one
yields the failure "cannot set property: key", equality yields success, and
a failing read-back propagates its error. -/
theorem setProperty_readback_verification (r : Runner) (fs pKey value s : String)
    (h1 : r.cmdError (setArgs pKey value fs) = none)
    (h2 : r.run (setArgs pKey value fs) = .ok s) :
    (∀ out, Property r fs pKey = .ok out →
      SetProperty r fs pKey value =
        if out = value then none else some ("cannot set property: " ++ pKey)) ∧
    (∀ e, Property r fs pKey = .error e →
      SetProperty r fs pKey value = some e) := by
  refine ⟨fun out h => ?_, fun e h => ?_⟩ <;>
    simp [SetProperty, h1, h2, h]

theorem setProperty_readback_verification_witness :
    SetProperty runnerStubborn "tank" "compression" "on" =
      some ("cannot set property: " ++ "compression") := by
  have h := (setProperty_readback_verification runnerStubborn "tank"
    "compression" "on" "" rfl rfl).1 "off" rfl
  rw [h]
  rfl

/-- C6: with an empty new-snapshot name the producer invocation is
`send fs@old` with no second snapshot argument; with a non-empty one it is
`send -i fs@old fs@new`; and whenever SendSnap returns a handle it is the
producer built from exactly these arguments. -/
theorem sendSnap_invocation_shape (fs old nw : String) :
    sendArgs fs old "" = ["send", fs ++ "@" ++ old] ∧
    (nw ≠ "" →
      sendArgs fs old nw = ["send", "-i", fs ++ "@" ++ old, fs ++ "@" ++ nw]) ∧
    ∀ env, (SendSnap env fs old nw).handle = none ∨
      (SendSnap env fs old nw).handle = some (sendArgs fs old nw) := by
  refine ⟨by simp [sendArgs], fun h => by simp [sendArgs, h], fun env => ?_⟩
  unfold SendSnap
  rcases env with ⟨ce, oe, ie, se, pb, cpe, d⟩
  cases ce <;> cases oe <;> cases ie <;> cases se <;> simp

theorem sendSnap_invocation_shape_witness :
    sendArgs "tank/a" "s1" "s2" = ["send", "-i", "tank/a@s1", "tank/a@s2"] := by
  have h := (sendSnap_invocation_shape "tank/a" "s1" "s2").2.1 (by decide)
  rw [h]
  rfl

/-- C8: once validation, both pipe acquisitions and the start succeeded,
SendSnap returns the producer handle together with the copy step's first
error — which is nil exactly on a clean end-of-stream. -/
theorem sendSnap_returns_handle_with_copy_error (env : SendEnv)
    (fs old nw : String)
    (h1 : env.cmdErr = none) (h2 : env.outPipeErr = none)
    (h3 : env.inPipeErr = none) (h4 : env.startErr = none) :
    (SendSnap env fs old nw).handle = some (sendArgs fs old nw) ∧
    (SendSnap env fs old nw).err = env.copyErr := by
  unfold SendSnap
  rw [h1, h2, h3, h4]
  exact ⟨rfl, rfl⟩

theorem sendSnap_returns_handle_with_copy_error_witness :
    (SendSnap sendEnvCopyFail "tank" "s1" "").handle =
      some (sendArgs "tank" "s1" "") ∧
    (SendSnap sendEnvCopyFail "tank" "s1" "").err =
      some "consumer closed early" := by
  have h := sendSnap_returns_handle_with_copy_error sendEnvCopyFail
    "tank" "s1" "" rfl rfl rfl rfl
  exact ⟨h.1, h.2⟩

/-- C9 counterexample: the property get returns the tool's stdout with its
trailing newline intact, which differs from the trimmed value the claim
promises. -/
theorem property_trimmed_cex :
    Property runnerNewline "tank" "k" = .ok "true\n" ∧
    trimStr "true\n" ≠ "true\n" := by
  exact ⟨rfl, by decide⟩

/-- C9 (amended): Property issues the single get query and returns the
tool's captured stdout exactly as produced, with no trimming. -/
theorem property_returns_raw_output (r : Runner) (fs pKey : String)
    (h : r.cmdError (propArgs pKey fs) = none) :
    Property r fs pKey = r.run (propArgs pKey fs) := by
  unfold Property
  rw [h]

theorem property_returns_raw_output_witness :
    Property runnerNewline "tank" "k" = .ok "true\n" := by
  rw [property_returns_raw_output runnerNewline "tank" "k" rfl]
  rfl

/-- C10: once the recv invocation validates, RecvSnap returns the consumer
handle with a nil error, whatever the outcome of the start call — the start
error is computed and discarded. -/
theorem recvSnap_discards_start_error (r : Runner) (fs snap : String)
    (h : r.cmdError (recvArgs fs snap) = none) :
    RecvSnap r fs snap = (some (recvArgs fs snap), none) := by
  unfold RecvSnap
  rw [h]

theorem recvSnap_discards_start_error_witness :
    RecvSnap runnerStartFail "tank" "s1" = (some (recvArgs "tank" "s1"), none) ∧
    runnerStartFail.start (recvArgs "tank" "s1") = some "exec failed" := by
  exact ⟨recvSnap_discards_start_error runnerStartFail "tank" "s1" rfl, rfl⟩

/-- C1 counterexample: the newest candidate's property read fails while the
next candidate reads "true"; the claim promises that candidate, but
RecentSnap abandons the scan and answers ("", none). -/
theorem recentSnap_skipOnError_cex :
    RecentSnap runnerFlaky "a@" "k" = ("", none) ∧
    Property runnerFlaky "a@s2" "k" = .error "transient failure" ∧
    Property runnerFlaky "a@s1" "k" = .ok "true" ∧
    mostRecentSnapshotSpec runnerFlaky "k" ["a@s2", "a@s1"] = "a@s1" ∧
    RecentSnap runnerFlaky "a@" "k" ≠ ("a@s1", none) := by
  refine ⟨rfl, rfl, rfl, rfl, by decide⟩

/-- C1 (amended): with a non-empty key, RecentSnap scans the recency-ordered
split of the listing; while every property read succeeds it returns the
first candidate whose value is the literal "true" (agreeing with the spec's
skip-on-error scan), it returns ("", none) when no candidate qualifies, and
the first failing property read stops the scan at that candidate, returning
("", none) with the error swallowed and the remaining candidates unread. -/
theorem recentSnap_firstTrue_abortOnReadError (r : Runner)
    (snap pKey out : String) (hk : pKey ≠ "")
    (hc : r.cmdError (recentArgs snap) = none)
    (hr : r.run (recentArgs snap) = .ok out) :
    RecentSnap r snap pKey = recentScan r pKey (splitNl out) ∧
    (∀ l : List String, (∀ s ∈ l, ∃ v, Property r s pKey = .ok v) →
      recentScan r pKey l = (mostRecentSnapshotSpec r pKey l, none)) ∧
    (∀ l1 l2 : List String, ∀ s : String,
      (∀ t ∈ l1, ∃ v, Property r t pKey = .ok v ∧ v ≠ "true") →
      (∃ e, Property r s pKey = .error e) →
      recentScan r pKey (l1 ++ s :: l2) = ("", none)) ∧
    (∀ l : List String,
      (∀ s ∈ l, ∀ v, Property r s pKey = .ok v → v ≠ "true") →
      recentScan r pKey l = ("", none)) := by
  refine ⟨?_, ?_, ?_, ?_⟩
  · unfold RecentSnap
    rw [hc, hr]
  · intro l
    induction l with
    | nil => intro _; simp [recentScan, mostRecentSnapshotSpec]
    | cons s rest ih =>
      intro h
      obtain ⟨v, hv⟩ := h s (List.mem_cons_self s rest)
      by_cases ht : v = "true"
      · subst ht
        simp [recentScan, mostRecentSnapshotSpec, hk, hv]
      · simp [recentScan, mostRecentSnapshotSpec, hk, hv, ht]
        exact ih fun t htm => h t (List.mem_cons_of_mem s htm)
  · intro l1 l2 s
    induction l1 with
    | nil =>
      intro _ hs
      obtain ⟨e, he⟩ := hs
      simp [recentScan, hk, he]
    | cons t rest ih =>
      intro h hs
      obtain ⟨v, hv, hvt⟩ := h t (List.mem_cons_self t rest)
      simp only [List.cons_append]
      simp [recentScan, hk, hv, hvt]
      exact ih (fun u hu => h u (List.mem_cons_of_mem t hu)) hs
  · intro l
    induction l with
    | nil => intro _; simp [recentScan]
    | cons s rest ih =>
      intro h
      cases hp : Property r s pKey with
      | error e => simp [recentScan, hk, hp]
      | ok v =>
        have hvt := h s (List.mem_cons_self s rest) v hp
        simp [recentScan, hk, hp, hvt]
        exact ih fun t htm => h t (List.mem_cons_of_mem s htm)

theorem recentSnap_firstTrue_abortOnReadError_witness :
    RecentSnap runnerSteady "a@" "k" = ("a@s1", none) := by
  have h := recentSnap_firstTrue_abortOnReadError runnerSteady "a@" "k"
    "a@s2\na@s1" (by decide) rfl rfl
  rw [h.1]
  rfl

/-- C4: for a pattern ending in the wildcard marker, List issues the full
non-recursive unfiltered filesystem-kind listing (the target argument
omitted) — whatever kind and recursive arguments were passed — and returns
exactly the subsequence of it whose entries contain the pattern with its
trailing wildcard markers stripped; a failure of that underlying listing
propagates. -/
theorem list_wildcard_filters_full_fs_listing (r : Runner) (p fsType : String)
    (recursive : Bool) (hp : hasStarSuffix p = true) :
    (∀ e, r.cmdError allFsArgs = some e →
      ListCmd r p fsType recursive = .error e) ∧
    (∀ e, r.cmdError allFsArgs = none → r.run allFsArgs = .error e →
      ListCmd r p fsType recursive = .error e) ∧
    (∀ out, r.cmdError allFsArgs = none → r.run allFsArgs = .ok out →
      ListCmd r p fsType recursive =
        .ok ((stripTrailingEmpty (splitNl out)).filter
          fun next => containsStr next (trimStars p))) := by
  have harg : listArgs "" FS false = allFsArgs := rfl
  refine ⟨fun e h1 => ?_, fun e h1 h2 => ?_, fun out h1 h2 => ?_⟩
  · simp [ListCmd, hp, listPlain, harg, h1]
  · simp [ListCmd, hp, listPlain, harg, h1, h2]
  · simp [ListCmd, hp, listPlain, harg, h1, h2]

theorem list_wildcard_filters_full_fs_listing_witness :
    ListCmd runnerPool "tank*" SNAP true = .ok ["tank", "tank/home"] := by
  have h := (list_wildcard_filters_full_fs_listing runnerPool "tank*" SNAP
    true rfl).2.2 "tank\ntank/home\nzroot/var\n" rfl rfl
  rw [h]
  rfl

/-- C7: the producer is started only after the command validation and both
pipe acquisitions succeeded — a successful start forces the full ordered
trace — and any failure of validation, of either pipe acquisition, or of
the start itself is returned immediately with a nil handle, the failing
step's error, and no started producer. -/
theorem sendSnap_start_after_pipes (env : SendEnv) (fs old nw : String) :
    (SendEv.startOk ∈ (SendSnap env fs old nw).trace →
      (SendSnap env fs old nw).trace =
        [SendEv.checkCmd, SendEv.pipeOut, SendEv.pipeIn, SendEv.startOk,
          SendEv.copy] ∧
      env.cmdErr = none ∧ env.outPipeErr = none ∧ env.inPipeErr = none) ∧
    ((SendSnap env fs old nw).handle = none →
      SendEv.startOk ∉ (SendSnap env fs old nw).trace ∧
      (SendSnap env fs old nw).err ≠ none) ∧
    (∀ e, env.cmdErr = some e →
      SendSnap env fs old nw = ⟨[SendEv.checkCmd], none, some e, []⟩) ∧
    (∀ e, env.cmdErr = none → env.outPipeErr = some e →
      SendSnap env fs old nw =
        ⟨[SendEv.checkCmd, SendEv.pipeOut], none, some e, []⟩) ∧
    (∀ e, env.cmdErr = none → env.outPipeErr = none → env.inPipeErr = some e →
      SendSnap env fs old nw =
        ⟨[SendEv.checkCmd, SendEv.pipeOut, SendEv.pipeIn], none, some e, []⟩) ∧
    (∀ e, env.cmdErr = none → env.outPipeErr = none → env.inPipeErr = none →
      env.startErr = some e →
      SendSnap env fs old nw =
        ⟨[SendEv.checkCmd, SendEv.pipeOut, SendEv.pipeIn, SendEv.startFail],
          none, some e, []⟩) := by
  rcases env with ⟨ce, oe, ie, se, pb, cpe, d⟩
  cases ce <;> cases oe <;> cases ie <;> cases se <;> simp [SendSnap]

theorem sendSnap_start_after_pipes_witness :
    SendSnap sendEnvPipeFail "tank" "s1" "s2" =
      ⟨[SendEv.checkCmd, SendEv.pipeOut], none, some "broken pipe", []⟩ := by
  exact (sendSnap_start_after_pipes sendEnvPipeFail "tank" "s1" "s2").2.2.2.1
    "broken pipe" rfl rfl

theorem copyChunks_flatten_len : ∀ (n : Nat) (l : List Nat), l.length ≤ n →
    (copyChunks l).flatten = l := by
  intro n
  induction n with
  | zero =>
    intro l h
    have hl : l = [] := List.eq_nil_of_length_eq_zero (Nat.le_zero.mp h)
    subst hl
    simp [copyChunks]
  | succ n ih =>
    intro l h
    by_cases hl : l = []
    · subst hl
      simp [copyChunks]
    · have hlen : (l.drop 32768).length ≤ n := by
        have h1 : 0 < l.length := List.length_pos.mpr hl
        simp only [List.length_drop]
        omega
      rw [copyChunks]
      simp only [dif_neg hl]
      show l.take 32768 ++ (copyChunks (l.drop 32768)).flatten = l
      rw [ih (l.drop 32768) hlen, List.take_append_drop]

theorem copyChunks_all_bounded : ∀ (n : Nat) (l : List Nat), l.length ≤ n →
    ∀ c ∈ copyChunks l, c.length ≤ 32768 := by
  intro n
  induction n with
  | zero =>
    intro l h
    have hl : l = [] := List.eq_nil_of_length_eq_zero (Nat.le_zero.mp h)
    subst hl
    simp [copyChunks]
  | succ n ih =>
    intro l h
    by_cases hl : l = []
    · subst hl
      simp [copyChunks]
    · have hlen : (l.drop 32768).length ≤ n := by
        have h1 : 0 < l.length := List.length_pos.mpr hl
        simp only [List.length_drop]
        omega
      rw [copyChunks]
      simp only [dif_neg hl]
      intro c hc
      rcases List.mem_cons.mp hc with hc | hc
      · subst hc
        rw [List.length_take]
        exact Nat.min_le_left _ _
      · exact ih (l.drop 32768) hlen c hc

/-- C2: the streaming copy of a producer stream of any size moves it through
fixed 32768-byte buffer rounds: concatenating the chunks written to the
consumer's input reproduces the producer's bytes exactly and in order, and
no round ever holds more than one buffer, independently of the stream's
size. -/
theorem sendSnap_copy_streams_exact_bounded (producer : List Nat) :
    (copyChunks producer).flatten = producer ∧
    ((copyChunks producer).all fun c => decide (c.length ≤ 32768)) = true := by
  constructor
  · exact copyChunks_flatten_len producer.length producer (Nat.le_refl _)
  · rw [List.all_eq_true]
    intro c hc
    simpa using
      copyChunks_all_bounded producer.length producer (Nat.le_refl _) c hc
